import Mathlib

/-!
Verification of the q2mon Quake 2 protocol client core.

This file shallowly embeds the protocol core of the repository
(the class-based source file: `Q2Client` and `EntityTracker`) in Lean:
byte-buffer readers, the netchan sequenced-packet layer, the
out-of-band (OOB) packet classifier, the entity tracker, and the
game-message decoder.  Byte buffers are `List Nat` (latin-1 byte
values); JavaScript numbers are `Nat`/`Int` with explicit two's
complement conversion; the fixed-point coordinates and angles are
exact rationals.  Places where the JavaScript code could throw
(`Buffer.readUInt32LE` and friends, which range-check) are modelled
with `Option`: `none` is an uncaught exception.
-/

namespace Q2Mon

/-! ## Byte-level readers -/

/-- `data[i]` with JavaScript's out-of-range `undefined` coerced to 0
(every use in the source is either guarded or written `data[idx] || 0`). -/
def byteAt (data : List Nat) (i : Nat) : Nat := data.getD i 0

/-- Unsigned little-endian 16-bit value at `i` (unchecked combination). -/
def u16At (data : List Nat) (i : Nat) : Nat :=
  byteAt data i + 256 * byteAt data (i + 1)

/-- Unsigned little-endian 32-bit value at `i` (unchecked combination). -/
def u32At (data : List Nat) (i : Nat) : Nat :=
  byteAt data i + 256 * byteAt data (i + 1) + 65536 * byteAt data (i + 2) +
    16777216 * byteAt data (i + 3)

/-- Two's complement reinterpretation of a 16-bit unsigned value. -/
def toInt16 (v : Nat) : Int :=
  if v < 32768 then (v : Int) else (v : Int) - 65536

/-- Two's complement reinterpretation of a 32-bit unsigned value. -/
def toInt32 (v : Nat) : Int :=
  if v < 2147483648 then (v : Int) else (v : Int) - 4294967296

/-- `buffer.readUInt16LE(i)`: throws (`none`) when fewer than 2 bytes remain. -/
def readU16 (data : List Nat) (i : Nat) : Option Nat :=
  if i + 2 ≤ data.length then some (u16At data i) else none

/-- `buffer.readUInt32LE(i)`: throws (`none`) when fewer than 4 bytes remain. -/
def readU32 (data : List Nat) (i : Nat) : Option Nat :=
  if i + 4 ≤ data.length then some (u32At data i) else none

/-- `buffer.readInt16LE(i)`: throws (`none`) when fewer than 2 bytes remain. -/
def readS16 (data : List Nat) (i : Nat) : Option Int :=
  (readU16 data i).map toInt16

/-- `buffer.readInt32LE(i)`: throws (`none`) when fewer than 4 bytes remain. -/
def readS32 (data : List Nat) (i : Nat) : Option Int :=
  (readU32 data i).map toInt32

/-- Source `readInt16`: lenient reader returning `{value, nextIndex}`,
with value 0 and cursor at the end when truncated. -/
def lenS16 (data : List Nat) (i : Nat) : Int × Nat :=
  if i + 2 > data.length then (0, data.length)
  else (toInt16 (u16At data i), i + 2)

/-- Source `readUInt16`: lenient unsigned 16-bit reader. -/
def lenU16 (data : List Nat) (i : Nat) : Nat × Nat :=
  if i + 2 > data.length then (0, data.length)
  else (u16At data i, i + 2)

/-- Source `readInt32`: lenient signed 32-bit reader. -/
def lenS32 (data : List Nat) (i : Nat) : Int × Nat :=
  if i + 4 > data.length then (0, data.length)
  else (toInt32 (u32At data i), i + 4)

/-- Source `readCoord`: 16-bit fixed point, `raw * 0.125`. -/
def lenCoord (data : List Nat) (i : Nat) : Rat × Nat :=
  if i + 2 > data.length then (0, data.length)
  else ((toInt16 (u16At data i) : Rat) / 8, i + 2)

/-- Source `readAngle`: byte angle, `raw * 360 / 256`. -/
def lenAngle (data : List Nat) (i : Nat) : Rat × Nat :=
  if i ≥ data.length then (0, data.length)
  else ((byteAt data i : Rat) * 360 / 256, i + 1)

/-- Source `readAngle16`: 16-bit angle, `raw * 360 / 65536`. -/
def lenAngle16 (data : List Nat) (i : Nat) : Rat × Nat :=
  if i + 2 > data.length then (0, data.length)
  else ((toInt16 (u16At data i) : Rat) * 360 / 65536, i + 2)

/-- Source `readCString`: scan forward to the first NUL (or the end of the
buffer); the text excludes the NUL and the cursor lands one past it. -/
def readCStr (data : List Nat) (i : Nat) : List Nat × Nat :=
  let t := (data.drop i).takeWhile (fun c => c ≠ 0)
  (t, i + t.length + 1)

/-! ## Quake string cleaning and JS text helpers -/

/-- One character of `cleanQuakeString`: strip the color bit, keep
printable ASCII, map CR/LF to LF, drop everything else. -/
def cleanQChar (c : Nat) : List Nat :=
  let c := if c ≥ 128 then c - 128 else c
  if 32 ≤ c ∧ c < 127 then [c]
  else if c = 10 ∨ c = 13 then [10]
  else []

/-- JavaScript whitespace test restricted to latin-1 code points
(tab, LF, VT, FF, CR, space, NBSP). -/
def jsWs (c : Nat) : Bool :=
  c = 9 ∨ c = 10 ∨ c = 11 ∨ c = 12 ∨ c = 13 ∨ c = 32 ∨ c = 160

/-- JavaScript `String.prototype.trim` on latin-1 byte strings. -/
def jsTrim (s : List Nat) : List Nat :=
  ((s.dropWhile jsWs).reverse.dropWhile jsWs).reverse

/-- Source `cleanQuakeString`: per-character cleaning then a trim. -/
def cleanQuakeString (s : List Nat) : List Nat :=
  jsTrim (s.flatMap cleanQChar)

/-- JavaScript `str.split(sep)` for a one-character separator:
split at every occurrence, always at least one (possibly empty) part. -/
def splitOnByte (sep : Nat) : List Nat → List (List Nat)
  | [] => [[]]
  | c :: rest =>
    if c = sep then [] :: splitOnByte sep rest
    else
      match splitOnByte sep rest with
      | t :: ts => (c :: t) :: ts
      | [] => [[c]]

/-- JavaScript `str.split(/\s+/)`: split at maximal whitespace runs,
keeping an empty token at a leading or trailing run. -/
def splitWs : List Nat → List (List Nat)
  | [] => [[]]
  | c :: rest =>
    let r := splitWs rest
    if jsWs c then
      match rest with
      | [] => [] :: r
      | d :: _ => if jsWs d then r else [] :: r
    else
      match r with
      | t :: ts => (c :: t) :: ts
      | [] => [[c]]

/-- Decimal digit test. -/
def isDigitB (c : Nat) : Bool := 48 ≤ c ∧ c ≤ 57

/-- Value of a list of decimal digit bytes. -/
def digitsVal (l : List Nat) : Nat :=
  l.foldl (fun acc c => acc * 10 + (c - 48)) 0

/-- JavaScript `parseInt(s)` (radix 10 path): skip leading whitespace,
optional sign, then a maximal run of decimal digits; `none` is `NaN`. -/
def parseIntJS (s : List Nat) : Option Int :=
  let s := s.dropWhile jsWs
  let (neg, s) :=
    match s with
    | 45 :: rest => (true, rest)
    | 43 :: rest => (false, rest)
    | _ => (false, s)
  let ds := s.takeWhile isDigitB
  if ds.isEmpty then none
  else some (if neg then -(digitsVal ds : Int) else (digitsVal ds : Int))

/-! ## Sequenced (netchan) packets -/

/-- Result of `parseSequencedPacket`: the decoded netchan header plus the
payload (`data`; JavaScript's `null` payload is the empty list). -/
structure SeqPacket where
  sequence : Nat
  reliable : Bool
  fragmented : Bool
  fragmentOffset : Nat
  moreFragments : Bool
  ack : Nat
  reliableAck : Bool
  data : List Nat
deriving Repr, DecidableEq

/-- Result of the top-level packet classifier `parseOOBPacket`. -/
inductive Parsed where
  | challenge (challengeId : Option Int) (supportedProtocols : List (Option Int))
  | print (message : List Nat)
  | client_connect (params : List (List Nat × List Nat))
  | disconnect (reason : List Nat)
  | ack
  | statusResponse (content : List Nat)
  | info (content : List Nat)
  | unknown_oob (raw : List Nat)
  | sequenced (p : SeqPacket)
  | sequencedError
deriving Repr, DecidableEq

/-- Source `parseSequencedPacket`: buffers shorter than 8 bytes yield the
error record; the two header words are split into sequence/ack numbers and
the reliable/fragment flag bits; a fragmented packet of length ≥ 10 carries
a fragment header at offset 8.  `none` models a thrown range error. -/
def parseSequencedPacket (buffer : List Nat) : Option Parsed := do
  if buffer.length < 8 then
    return .sequencedError
  let sequenceRaw ← readU32 buffer 0
  let ackRaw ← readU32 buffer 4
  let reliable := sequenceRaw &&& 2147483648 ≠ 0
  let fragmented := sequenceRaw &&& 1073741824 ≠ 0
  let reliableAck := ackRaw &&& 2147483648 ≠ 0
  let sequence := sequenceRaw &&& 1073741823
  let ack := ackRaw &&& 1073741823
  if fragmented ∧ buffer.length ≥ 10 then
    let fragHeader ← readU16 buffer 8
    return .sequenced
      { sequence, reliable, fragmented
        fragmentOffset := fragHeader &&& 32767
        moreFragments := fragHeader &&& 32768 ≠ 0
        ack, reliableAck, data := buffer.drop 10 }
  return .sequenced
    { sequence, reliable, fragmented
      fragmentOffset := 0, moreFragments := false
      ack, reliableAck, data := buffer.drop 8 }

/-- The `challenge` branch: the last whitespace token starting with `p=`
supplies the protocol list (`parseInt` of each comma-separated piece). -/
def challengeProtos (parts : List (List Nat)) : List (Option Int) :=
  (parts.drop 2).foldl
    (fun acc part =>
      if [112, 61].isPrefixOf part then (splitOnByte 44 (part.drop 2)).map parseIntJS
      else acc)
    []

/-- Source `parseOOBPacket`: buffers with the `0xFFFFFFFF` prefix are
classified by their first text token; anything else goes to
`parseSequencedPacket`.  `none` models the `catch` returning `null`. -/
def parseOOBPacket (buffer : List Nat) : Option Parsed :=
  let isOOB := buffer.length ≥ 4 ∧ buffer.take 4 = [255, 255, 255, 255]
  if ¬isOOB then parseSequencedPacket buffer
  else
    let content := buffer.drop 4
    let lines := splitOnByte 10 content
    let firstLine := jsTrim (lines.headD [])
    -- "challenge"
    if [99, 104, 97, 108, 108, 101, 110, 103, 101].isPrefixOf firstLine then
      let parts := splitWs firstLine
      let challengeId :=
        match parts.drop 1 with
        | [] => none
        | p :: _ => parseIntJS p
      some (.challenge challengeId (challengeProtos parts))
    -- "print"
    else if [112, 114, 105, 110, 116].isPrefixOf firstLine then
      some (.print (cleanQuakeString (jsTrim (content.drop 6))))
    -- "client_connect"
    else if [99, 108, 105, 101, 110, 116, 95, 99, 111, 110, 110, 101, 99,
        116].isPrefixOf firstLine then
      let parts := splitWs firstLine
      let params := (parts.drop 1).foldr
        (fun part acc =>
          match splitOnByte 61 part with
          | key :: value :: _ =>
            if key ≠ [] ∧ value ≠ [] then (key, value) :: acc else acc
          | _ => acc)
        []
      some (.client_connect params)
    -- "disconnect"
    else if [100, 105, 115, 99, 111, 110, 110, 101, 99, 116].isPrefixOf firstLine then
      some (.disconnect (jsTrim (content.drop 10)))
    -- "ack" (exact match)
    else if firstLine = [97, 99, 107] then
      some .ack
    -- "statusResponse"
    else if [115, 116, 97, 116, 117, 115, 82, 101, 115, 112, 111, 110, 115,
        101].isPrefixOf firstLine then
      some (.statusResponse content)
    -- "info"
    else if [105, 110, 102, 111].isPrefixOf firstLine then
      some (.info content)
    else
      some (.unknown_oob content)

/-! ## Netchan receive state machine -/

/-- The netchan fields of the client touched by the sequenced branch of
`handleServerPacket`. -/
structure NetState where
  incomingSequence : Nat
  incomingAcknowledged : Nat
  incomingReliableAcknowledged : Nat
  incomingReliableSequence : Nat
  fragmentSequence : Nat
  fragmentBuffer : List Nat
deriving Repr, DecidableEq

/-- Netchan state right after the constructor. -/
def netchanInit : NetState :=
  { incomingSequence := 0, incomingAcknowledged := 0
    incomingReliableAcknowledged := 0, incomingReliableSequence := 0
    fragmentSequence := 0, fragmentBuffer := [] }

/-- Where the sequenced branch exited: `dropped` is the duplicate early
return, `fragDropped` the out-of-order fragment return, `fragWaiting` the
more-fragments return, and `promoted` means control reached the common
commit point with the given payload (the code then decodes the payload, if
any, and finishes with `sendSequencedResponse`). -/
inductive NetOutcome where
  | dropped
  | fragDropped
  | fragWaiting
  | promoted (data : List Nat) (hasData : Bool)
deriving Repr, DecidableEq

/-- The `case "sequenced"` branch of `handleServerPacket`, up to the point
where the payload is handed to the decoder. -/
def netchanReceive (s : NetState) (p : SeqPacket) : NetState × NetOutcome :=
  if p.sequence ≤ s.incomingSequence ∧ s.incomingSequence > 0 ∧ p.fragmented = false then
    (s, .dropped)
  else
    let s1 : NetState :=
      { s with
        incomingAcknowledged := p.ack
        incomingReliableAcknowledged :=
          if p.reliableAck ≠ (s.incomingReliableAcknowledged = 1) then
            (if p.reliableAck then 1 else 0)
          else s.incomingReliableAcknowledged }
    if p.fragmented then
      let s2 :=
        if s1.fragmentSequence ≠ p.sequence then
          { s1 with fragmentSequence := p.sequence, fragmentBuffer := [] }
        else s1
      if p.fragmentOffset ≠ s2.fragmentBuffer.length then (s2, .fragDropped)
      else
        let s3 := { s2 with fragmentBuffer := s2.fragmentBuffer ++ p.data }
        if p.moreFragments then (s3, .fragWaiting)
        else
          let buf := s3.fragmentBuffer
          let s4 := { s3 with fragmentBuffer := [], incomingSequence := p.sequence }
          let s5 :=
            if p.reliable then
              { s4 with incomingReliableSequence := s4.incomingReliableSequence ^^^ 1 }
            else s4
          (s5, .promoted buf (!buf.isEmpty))
    else
      let s4 := { s1 with incomingSequence := p.sequence }
      let s5 :=
        if p.reliable then
          { s4 with incomingReliableSequence := s4.incomingReliableSequence ^^^ 1 }
        else s4
      (s5, .promoted p.data (!p.data.isEmpty))

/-- Whether the outcome reaches the tail of the sequenced branch, where the
payload is decoded and `sendSequencedResponse` is sent; the three drop
outcomes `return` before it. -/
def mayRespond : NetOutcome → Bool
  | .promoted _ _ => true
  | _ => false

/-- A promoted packet with an empty payload skips the message loop and
falls through directly to `sendSequencedResponse`: an acknowledgement is
sent unconditionally. -/
def sendsAckOnEmptyPayload (s : NetState) (p : SeqPacket) : Bool :=
  match (netchanReceive s p).2 with
  | .promoted [] _ => true
  | _ => false

/-- Feed a list of packets through `netchanReceive`, collecting the
outcome of each. -/
def netchanFeed (s : NetState) : List SeqPacket → NetState × List NetOutcome
  | [] => (s, [])
  | p :: ps =>
    ((netchanFeed (netchanReceive s p).1 ps).1,
     (netchanReceive s p).2 :: (netchanFeed (netchanReceive s p).1 ps).2)

/-- A fragment packet of the family `q` at byte offset `off`. -/
def mkFrag (q off : Nat) (more : Bool) (d : List Nat) : SeqPacket :=
  { sequence := q, reliable := false, fragmented := true
    fragmentOffset := off, moreFragments := more
    ack := 0, reliableAck := false, data := d }

/-- An in-order fragment run for family `q`: the chunks (more-fragments
set) at successive cumulative offsets starting at `off`, then the final
chunk (more-fragments clear). -/
def fragRun (q : Nat) : List (List Nat) → Nat → List Nat → List SeqPacket
  | [], off, lastChunk => [mkFrag q off false lastChunk]
  | c :: cs, off, lastChunk => mkFrag q off true c :: fragRun q cs (off + c.length) lastChunk

/-- The netchan state after the ack words are recorded and an in-order
fragment `c` is appended to the buffer (used to state the fragment
lemmas; `ack` and `reliableAck` of the fed packets are 0/false). -/
def fragWaitState (s : NetState) (c : List Nat) : NetState :=
  { s with
      incomingAcknowledged := 0
      incomingReliableAcknowledged :=
        if s.incomingReliableAcknowledged = 1 then 0
        else s.incomingReliableAcknowledged
      fragmentBuffer := s.fragmentBuffer ++ c }

/-- The netchan state after a completed reassembly of family `q` is
promoted: the buffer empties and the sequence commits. -/
def fragDoneState (s : NetState) (q : Nat) : NetState :=
  { s with
      incomingAcknowledged := 0
      incomingReliableAcknowledged :=
        if s.incomingReliableAcknowledged = 1 then 0
        else s.incomingReliableAcknowledged
      fragmentBuffer := []
      incomingSequence := q }

/-- The family reset performed when a fragment's sequence differs from
`fragment_sequence`. -/
def fragResetState (s : NetState) (q : Nat) : NetState :=
  { s with fragmentSequence := q, fragmentBuffer := [] }

/-! ## Challenge handling and the connect command -/

/-- The protocol selection in the `case "challenge"` branch of
`handleServerPacket`: prefer AQtion (38), then Q2PRO (36), then R1Q2 (35),
then Vanilla (34); keep the current protocol when the list is empty or
contains none of them. -/
def selectProtocol (current : Int) (ps : List (Option Int)) : Int :=
  if ps.length > 0 then
    if some 38 ∈ ps then 38
    else if some 36 ∈ ps then 36
    else if some 35 ∈ ps then 35
    else if some 34 ∈ ps then 34
    else current
  else current

/-- Decimal digits (as ASCII bytes) of a natural number. -/
def natBytes (n : Nat) : List Nat :=
  (Nat.toDigits 10 n).map Char.toNat

/-- The fixed userinfo string from `createConnectPacket`. -/
def userinfoBytes (playerName : List Nat) : List Nat :=
  [92, 110, 97, 109, 101, 92] ++ playerName ++
  -- \skin\male/grunt\rate\25000\msg\1\hand\2\fov\90\spectator\1
  [92, 115, 107, 105, 110, 92, 109, 97, 108, 101, 47, 103, 114, 117, 110,
   116, 92, 114, 97, 116, 101, 92, 50, 53, 48, 48, 48, 92, 109, 115, 103,
   92, 49, 92, 104, 97, 110, 100, 92, 50, 92, 102, 111, 118, 92, 57, 48,
   92, 115, 112, 101, 99, 116, 97, 116, 111, 114, 92, 49]

/-- The connect command text built by `createConnectPacket` (the extended
protocols append a protocol-specific tail after the quoted userinfo). -/
def connectCommand (protocol : Int) (qport challengeId : Nat)
    (playerName : List Nat) (netchanType : Nat) : List Nat :=
  -- "connect "
  let head := [99, 111, 110, 110, 101, 99, 116, 32]
  let mid := natBytes protocol.toNat ++ [32] ++ natBytes qport ++ [32] ++
    natBytes challengeId ++ [32, 34] ++ userinfoBytes playerName ++ [34]
  if protocol = 36 then
    head ++ mid ++ [32] ++ natBytes 1390 ++ [32] ++ natBytes netchanType ++
      [32] ++ natBytes 1 ++ [32] ++ natBytes 1024
  else if protocol = 38 then
    head ++ mid ++ [32] ++ natBytes 1390 ++ [32] ++ natBytes netchanType ++
      [32] ++ natBytes 1 ++ [32] ++ natBytes 3015
  else if protocol = 35 then
    head ++ mid ++ [32] ++ natBytes 1390 ++ [32] ++ natBytes 1905
  else
    head ++ mid

/-! ## Entity and player state -/

/-- One entity record, as created by `createEmptyEntity` (plus the
`removed` key that a delta may add; it is absent-falsy initially). -/
structure EntState where
  number : Nat := 0
  modelindex : Nat := 0
  modelindex2 : Nat := 0
  modelindex3 : Nat := 0
  modelindex4 : Nat := 0
  frame : Nat := 0
  skinnum : Int := 0
  effects : Int := 0
  renderfx : Int := 0
  originX : Rat := 0
  originY : Rat := 0
  originZ : Rat := 0
  anglesPitch : Rat := 0
  anglesYaw : Rat := 0
  anglesRoll : Rat := 0
  oldOriginX : Rat := 0
  oldOriginY : Rat := 0
  oldOriginZ : Rat := 0
  sound : Nat := 0
  event : Nat := 0
  solid : Nat := 0
  active : Bool := false
  removed : Bool := false
deriving Repr, DecidableEq

/-- `createEmptyEntity`. -/
def emptyEntity : EntState := {}

/-- The pmove block of the player state. -/
structure PMove where
  pm_type : Nat := 0
  originX : Rat := 0
  originY : Rat := 0
  originZ : Rat := 0
  velocityX : Rat := 0
  velocityY : Rat := 0
  velocityZ : Rat := 0
  pm_flags : Nat := 0
  pm_time : Nat := 0
  gravity : Int := 0
  deltaPitch : Rat := 0
  deltaYaw : Rat := 0
  deltaRoll : Rat := 0
deriving Repr, DecidableEq

/-- The player state, as created by `createEmptyPlayerState`. -/
structure PlayerState where
  pmove : PMove := {}
  viewX : Rat := 0
  viewY : Rat := 0
  viewZ : Rat := 0
  vaPitch : Rat := 0
  vaYaw : Rat := 0
  vaRoll : Rat := 0
  kickPitch : Rat := 0
  kickYaw : Rat := 0
  kickRoll : Rat := 0
  gunindex : Nat := 0
  gunframe : Nat := 0
  blend : List Rat := [0, 0, 0, 0]
  fov : Nat := 90
  rdflags : Nat := 0
  stats : List Int := List.replicate 32 0
deriving Repr, DecidableEq

/-- The `EntityTracker` instance state: the two parallel slot tables and
the player state pair. -/
structure Tracker where
  baselines : Nat → EntState
  entities : Nat → EntState
  playerState : PlayerState
  previousPlayerState : PlayerState

/-- Tracker state right after the constructor / `reset`. -/
def trackerInit : Tracker :=
  { baselines := fun _ => emptyEntity, entities := fun _ => emptyEntity
    playerState := {}, previousPlayerState := {} }

/-- `EntityTracker.setBaseline`: store a copy at an in-range slot. -/
def setBaseline (t : Tracker) (entityNum : Nat) (s : EntState) : Tracker :=
  if entityNum < 1024 then
    { t with baselines := Function.update t.baselines entityNum s }
  else t

/-- `EntityTracker.updateEntity`: overwrite the slot with the delta state
(the delta always carries every field, being a spread of its reference),
forcing `number` and deriving `active`; out-of-range slots return `null`. -/
def updateEntity (t : Tracker) (entityNum : Nat) (delta : EntState) :
    Tracker × Option EntState :=
  if entityNum ≥ 1024 then (t, none)
  else
    let e := { delta with number := entityNum, active := !delta.removed }
    ({ t with entities := Function.update t.entities entityNum e }, some e)

/-- `EntityTracker.getEntity` (and the delegating `Q2Client.getEntity`):
`null` outside `0 ≤ n < MAX_EDICTS`, the stored record otherwise. -/
def getEntity (t : Tracker) (n : Int) : Option EntState :=
  if 0 ≤ n ∧ n < 1024 then some (t.entities n.toNat) else none

/-- `EntityTracker.updatePlayerState`: remember the previous state and
overwrite with the delta (which carries every field). -/
def updatePlayerState (t : Tracker) (delta : PlayerState) : Tracker :=
  { t with previousPlayerState := t.playerState, playerState := delta }

/-! ## Entity delta bits and parsers -/

def U_ORIGIN1 : Nat := 1
def U_ORIGIN2 : Nat := 2
def U_ANGLE2 : Nat := 4
def U_ANGLE3 : Nat := 8
def U_FRAME8 : Nat := 16
def U_EVENT : Nat := 32
def U_REMOVE : Nat := 64
def U_MOREBITS1 : Nat := 128
def U_NUMBER16 : Nat := 256
def U_ORIGIN3 : Nat := 512
def U_ANGLE1 : Nat := 1024
def U_MODEL : Nat := 2048
def U_RENDERFX8 : Nat := 4096
def U_EFFECTS8 : Nat := 16384
def U_MOREBITS2 : Nat := 32768
def U_SKIN8 : Nat := 65536
def U_FRAME16 : Nat := 131072
def U_RENDERFX16 : Nat := 262144
def U_EFFECTS16 : Nat := 524288
def U_MODEL2 : Nat := 1048576
def U_MODEL3 : Nat := 2097152
def U_MODEL4 : Nat := 4194304
def U_MOREBITS3 : Nat := 8388608
def U_OLDORIGIN : Nat := 16777216
def U_SKIN16 : Nat := 33554432
def U_SOUND : Nat := 67108864
def U_SOLID : Nat := 134217728

/-- Bit test helper for the JS `bits & FLAG` truthiness checks. -/
def bhas (bits flag : Nat) : Bool := bits &&& flag ≠ 0

/-- `parseEntityBits`: one byte of bits extended by up to three more-bits
bytes, each read only when in range. -/
def parseEntityBits (data : List Nat) (idx : Nat) : Nat × Nat :=
  if idx ≥ data.length then (0, idx)
  else
    let bits := byteAt data idx
    let idx := idx + 1
    if bhas bits U_MOREBITS1 then
      if idx ≥ data.length then (bits, idx)
      else
        let bits := bits ||| (byteAt data idx <<< 8)
        let idx := idx + 1
        if bhas bits U_MOREBITS2 then
          if idx ≥ data.length then (bits, idx)
          else
            let bits := bits ||| (byteAt data idx <<< 16)
            let idx := idx + 1
            if bhas bits U_MOREBITS3 then
              if idx ≥ data.length then (bits, idx)
              else (bits ||| (byteAt data idx <<< 24), idx + 1)
            else (bits, idx)
        else (bits, idx)
    else (bits, idx)

/-- Cursor for the sequential field parsing of an entity delta. -/
structure ECur where
  st : EntState
  idx : Nat
deriving Repr, DecidableEq

/-- The model index block of `parseEntityStateFromBits`. -/
def pesModels (data : List Nat) (bits : Nat) (c : ECur) : ECur :=
  let c := if bhas bits U_MODEL then
    ⟨{ c.st with modelindex := byteAt data c.idx }, c.idx + 1⟩ else c
  let c := if bhas bits U_MODEL2 then
    ⟨{ c.st with modelindex2 := byteAt data c.idx }, c.idx + 1⟩ else c
  let c := if bhas bits U_MODEL3 then
    ⟨{ c.st with modelindex3 := byteAt data c.idx }, c.idx + 1⟩ else c
  if bhas bits U_MODEL4 then
    ⟨{ c.st with modelindex4 := byteAt data c.idx }, c.idx + 1⟩ else c

/-- The frame block of `parseEntityStateFromBits` (both frame ifs are
sequential in the source). -/
def pesFrame (data : List Nat) (bits : Nat) (c : ECur) : ECur :=
  let c := if bhas bits U_FRAME8 then
    ⟨{ c.st with frame := byteAt data c.idx }, c.idx + 1⟩ else c
  if bhas bits U_FRAME16 then
    let (v, i) := lenU16 data c.idx
    ⟨{ c.st with frame := v }, i⟩
  else c

/-- The skin block of `parseEntityStateFromBits`. -/
def pesSkin (data : List Nat) (bits : Nat) (c : ECur) : ECur :=
  if bhas bits U_SKIN8 ∧ bhas bits U_SKIN16 then
    let (v, i) := lenS32 data c.idx
    ⟨{ c.st with skinnum := v }, i⟩
  else if bhas bits U_SKIN8 then
    ⟨{ c.st with skinnum := byteAt data c.idx }, c.idx + 1⟩
  else if bhas bits U_SKIN16 then
    let (v, i) := lenU16 data c.idx
    ⟨{ c.st with skinnum := v }, i⟩
  else c

/-- The effects block of `parseEntityStateFromBits`. -/
def pesEffects (data : List Nat) (bits : Nat) (c : ECur) : ECur :=
  if bhas bits U_EFFECTS8 ∧ bhas bits U_EFFECTS16 then
    let (v, i) := lenS32 data c.idx
    ⟨{ c.st with effects := v }, i⟩
  else if bhas bits U_EFFECTS8 then
    ⟨{ c.st with effects := byteAt data c.idx }, c.idx + 1⟩
  else if bhas bits U_EFFECTS16 then
    let (v, i) := lenU16 data c.idx
    ⟨{ c.st with effects := v }, i⟩
  else c

/-- The renderfx block of `parseEntityStateFromBits`. -/
def pesRenderfx (data : List Nat) (bits : Nat) (c : ECur) : ECur :=
  if bhas bits U_RENDERFX8 ∧ bhas bits U_RENDERFX16 then
    let (v, i) := lenS32 data c.idx
    ⟨{ c.st with renderfx := v }, i⟩
  else if bhas bits U_RENDERFX8 then
    ⟨{ c.st with renderfx := byteAt data c.idx }, c.idx + 1⟩
  else if bhas bits U_RENDERFX16 then
    let (v, i) := lenU16 data c.idx
    ⟨{ c.st with renderfx := v }, i⟩
  else c

/-- The origin block of `parseEntityStateFromBits`. -/
def pesOrigin (data : List Nat) (bits : Nat) (c : ECur) : ECur :=
  let c := if bhas bits U_ORIGIN1 then
    let (v, i) := lenCoord data c.idx
    ⟨{ c.st with originX := v }, i⟩ else c
  let c := if bhas bits U_ORIGIN2 then
    let (v, i) := lenCoord data c.idx
    ⟨{ c.st with originY := v }, i⟩ else c
  if bhas bits U_ORIGIN3 then
    let (v, i) := lenCoord data c.idx
    ⟨{ c.st with originZ := v }, i⟩ else c

/-- The angles block of `parseEntityStateFromBits`. -/
def pesAngles (data : List Nat) (bits : Nat) (c : ECur) : ECur :=
  let c := if bhas bits U_ANGLE1 then
    let (v, i) := lenAngle data c.idx
    ⟨{ c.st with anglesPitch := v }, i⟩ else c
  let c := if bhas bits U_ANGLE2 then
    let (v, i) := lenAngle data c.idx
    ⟨{ c.st with anglesYaw := v }, i⟩ else c
  if bhas bits U_ANGLE3 then
    let (v, i) := lenAngle data c.idx
    ⟨{ c.st with anglesRoll := v }, i⟩ else c

/-- The old-origin, sound, event and solid blocks of
`parseEntityStateFromBits`. -/
def pesTail (data : List Nat) (bits : Nat) (c : ECur) : ECur :=
  let c :=
    if bhas bits U_OLDORIGIN then
      let (x, i1) := lenCoord data c.idx
      let (y, i2) := lenCoord data i1
      let (z, i3) := lenCoord data i2
      ⟨{ c.st with oldOriginX := x, oldOriginY := y, oldOriginZ := z }, i3⟩
    else c
  let c := if bhas bits U_SOUND then
    ⟨{ c.st with sound := byteAt data c.idx }, c.idx + 1⟩ else c
  let c := if bhas bits U_EVENT then
    ⟨{ c.st with event := byteAt data c.idx }, c.idx + 1⟩ else c
  if bhas bits U_SOLID then
    let (v, i) := lenU16 data c.idx
    ⟨{ c.st with solid := v }, i⟩
  else c

/-- `parseEntityStateFromBits`: spread the reference state and overwrite
the fields selected by `bits`, reading each with the lenient readers; the
U_REMOVE bit short-circuits. -/
def parseEntityStateFromBits (data : List Nat) (idx : Nat) (bits : Nat)
    (baseline : EntState) (entityNum : Nat) : EntState × Nat :=
  let state := { baseline with number := entityNum }
  if bhas bits U_REMOVE then
    ({ state with removed := true, active := false }, idx)
  else
    let c : ECur := ⟨state, idx⟩
    let c := pesModels data bits c
    let c := pesFrame data bits c
    let c := pesSkin data bits c
    let c := pesEffects data bits c
    let c := pesRenderfx data bits c
    let c := pesOrigin data bits c
    let c := pesAngles data bits c
    let c := pesTail data bits c
    ({ c.st with active := true }, c.idx)

/-! ## Player state delta bits and parser -/

def PS_M_TYPE : Nat := 1
def PS_M_ORIGIN : Nat := 2
def PS_M_VELOCITY : Nat := 4
def PS_M_TIME : Nat := 8
def PS_M_FLAGS : Nat := 16
def PS_M_GRAVITY : Nat := 32
def PS_M_DELTA_ANGLES : Nat := 64
def PS_VIEWOFFSET : Nat := 128
def PS_VIEWANGLES : Nat := 256
def PS_KICKANGLES : Nat := 512
def PS_BLEND : Nat := 1024
def PS_FOV : Nat := 2048
def PS_WEAPONINDEX : Nat := 4096
def PS_WEAPONFRAME : Nat := 8192
def PS_RDFLAGS : Nat := 16384

/-- Cursor for the sequential field parsing of a player-state delta. -/
structure PCur where
  ps : PlayerState
  idx : Nat
deriving Repr, DecidableEq

/-- The pmove block of `parsePlayerState`. -/
def ppsMove (data : List Nat) (flags : Nat) (c : PCur) : PCur :=
  let c := if bhas flags PS_M_TYPE then
    ⟨{ c.ps with pmove := { c.ps.pmove with pm_type := byteAt data c.idx } }, c.idx + 1⟩
  else c
  let c :=
    if bhas flags PS_M_ORIGIN then
      let (x, i1) := lenS16 data c.idx
      let (y, i2) := lenS16 data i1
      let (z, i3) := lenS16 data i2
      ⟨{ c.ps with pmove := { c.ps.pmove with
          originX := (x : Rat) / 8, originY := (y : Rat) / 8, originZ := (z : Rat) / 8 } }, i3⟩
    else c
  let c :=
    if bhas flags PS_M_VELOCITY then
      let (x, i1) := lenS16 data c.idx
      let (y, i2) := lenS16 data i1
      let (z, i3) := lenS16 data i2
      ⟨{ c.ps with pmove := { c.ps.pmove with
          velocityX := (x : Rat) / 8, velocityY := (y : Rat) / 8, velocityZ := (z : Rat) / 8 } }, i3⟩
    else c
  let c := if bhas flags PS_M_TIME then
    ⟨{ c.ps with pmove := { c.ps.pmove with pm_time := byteAt data c.idx } }, c.idx + 1⟩
  else c
  let c := if bhas flags PS_M_FLAGS then
    ⟨{ c.ps with pmove := { c.ps.pmove with pm_flags := byteAt data c.idx } }, c.idx + 1⟩
  else c
  let c :=
    if bhas flags PS_M_GRAVITY then
      let (g, i) := lenS16 data c.idx
      ⟨{ c.ps with pmove := { c.ps.pmove with gravity := g } }, i⟩
    else c
  if bhas flags PS_M_DELTA_ANGLES then
    let (p, i1) := lenS16 data c.idx
    let (y, i2) := lenS16 data i1
    let (r, i3) := lenS16 data i2
    ⟨{ c.ps with pmove := { c.ps.pmove with
        deltaPitch := (p : Rat) * 360 / 65536, deltaYaw := (y : Rat) * 360 / 65536,
        deltaRoll := (r : Rat) * 360 / 65536 } }, i3⟩
  else c

/-- The view blocks of `parsePlayerState` (view offset, view angles and
kick angles; the byte fields use the unsigned byte value as the source
does). -/
def ppsView (data : List Nat) (flags : Nat) (c : PCur) : PCur :=
  let c :=
    if bhas flags PS_VIEWOFFSET then
      ⟨{ c.ps with
          viewX := (byteAt data c.idx : Rat) / 4
          viewY := (byteAt data (c.idx + 1) : Rat) / 4
          viewZ := (byteAt data (c.idx + 2) : Rat) / 4 }, c.idx + 3⟩
    else c
  let c :=
    if bhas flags PS_VIEWANGLES then
      let (p, i1) := lenAngle16 data c.idx
      let (y, i2) := lenAngle16 data i1
      let (r, i3) := lenAngle16 data i2
      ⟨{ c.ps with vaPitch := p, vaYaw := y, vaRoll := r }, i3⟩
    else c
  if bhas flags PS_KICKANGLES then
    ⟨{ c.ps with
        kickPitch := (byteAt data c.idx : Rat) / 4
        kickYaw := (byteAt data (c.idx + 1) : Rat) / 4
        kickRoll := (byteAt data (c.idx + 2) : Rat) / 4 }, c.idx + 3⟩
  else c

/-- The weapon, blend, fov and rdflags blocks of `parsePlayerState`
(`fov` keeps the JavaScript `|| 90` default on a zero byte). -/
def ppsTail (data : List Nat) (flags : Nat) (c : PCur) : PCur :=
  let c := if bhas flags PS_WEAPONINDEX then
    ⟨{ c.ps with gunindex := byteAt data c.idx }, c.idx + 1⟩ else c
  let c := if bhas flags PS_WEAPONFRAME then
    ⟨{ c.ps with gunframe := byteAt data c.idx }, c.idx + 1⟩ else c
  let c :=
    if bhas flags PS_BLEND then
      ⟨{ c.ps with blend :=
          [(byteAt data c.idx : Rat) / 255, (byteAt data (c.idx + 1) : Rat) / 255,
           (byteAt data (c.idx + 2) : Rat) / 255, (byteAt data (c.idx + 3) : Rat) / 255] },
        c.idx + 4⟩
    else c
  let c :=
    if bhas flags PS_FOV then
      let b := byteAt data c.idx
      ⟨{ c.ps with fov := if b = 0 then 90 else b }, c.idx + 1⟩
    else c
  if bhas flags PS_RDFLAGS then
    ⟨{ c.ps with rdflags := byteAt data c.idx }, c.idx + 1⟩
  else c

/-- `parsePlayerState`: spread of the tracker's player state with the
flag-selected fields overwritten (the stats tail is not read). -/
def parsePlayerState (basePs : PlayerState) (data : List Nat) (idx : Nat)
    (flags : Nat) : PlayerState × Nat :=
  let c : PCur := ⟨basePs, idx⟩
  let c := ppsMove data flags c
  let c := ppsView data flags c
  let c := ppsTail data flags c
  (c.ps, c.idx)

/-! ## Packet entities -/

/-- One iteration step of `parsePacketEntities`, factored out: parse the
bits, the entity number, then the delta applied over the baseline slot;
update the tracker.  Returns `none` when the loop breaks (end of
entities, or an out-of-range entity number). -/
def ppeStep (t : Tracker) (data : List Nat) (idx : Nat) :
    Except Nat (Tracker × Option EntState × Nat) :=
  let (bits, idx) := parseEntityBits data idx
  if bits = 0 then .error idx
  else
    let (entityNum, idx) :=
      if bhas bits U_NUMBER16 then lenU16 data idx
      else (byteAt data idx, idx + 1)
    if entityNum = 0 ∨ entityNum ≥ 1024 then .error idx
    else
      let baseline := t.baselines entityNum
      let (state, idx) := parseEntityStateFromBits data idx bits baseline entityNum
      let (t, upd) := updateEntity t entityNum state
      .ok (t, upd, idx)

/-- The loop of `parsePacketEntities`, with fuel (the source loop always
advances the cursor, so `data.length + 1` fuel is plenty). -/
def ppeLoop (fuel : Nat) (t : Tracker) (data : List Nat) (idx : Nat)
    (acc : List EntState) : Tracker × List EntState × Nat :=
  match fuel with
  | 0 => (t, acc, idx)
  | fuel + 1 =>
    if idx < data.length then
      match ppeStep t data idx with
      | .error idx => (t, acc, idx)
      | .ok (t, upd, idx) =>
        ppeLoop fuel t data idx (acc ++ upd.toList)
    else (t, acc, idx)

/-- `parsePacketEntities`: parse delta records until the zero-bits
terminator, applying each to the tracker and collecting the updates. -/
def parsePacketEntities (t : Tracker) (data : List Nat) (idx : Nat) :
    Tracker × List EntState × Nat :=
  ppeLoop (data.length + 1) t data idx []

/-! ## Game-message decoder -/

/-- Decoder-visible client state mutated by `parseGameMessage`. -/
structure DecSt where
  serverProtocol : Int := 34
  serverProtocolMinor : Int := 0
  lastFrameNum : Int := -1
  tracker : Tracker := trackerInit

/-- Messages pushed by `parseGameMessage`. -/
inductive GameMsg where
  | serverdata (protocol serverCount : Int) (attractloop : Nat)
      (gameDir : List Nat) (clientNum : Int) (mapName : List Nat)
  | configstring (index : Nat) (text : List Nat)
  | print (level : Nat) (text : List Nat)
  | centerprint (text : List Nat)
  | stufftext (text : List Nat)
  | server_disconnect
  | reconnect
  | playerUpd (posX posY posZ velX velY velZ vaP vaY vaR : Rat)
      (weapon fov : Nat)
  | entityUpd (e : EntState)
deriving Repr, DecidableEq

/-- The `SVC.SERVERDATA` case: mandatory 9-byte guard, protocol and
server count, attract byte, gamedir / client number / map name, then the
protocol-specific tail whose bytes are consumed under the source's length
guards.  `serverProtocol` is committed before the strings are read. -/
def execServerdata (st : DecSt) (data : List Nat) (idx : Nat) :
    Option (DecSt × Nat × List GameMsg × Bool) :=
  if idx + 9 > data.length then some (st, idx, [], true)
  else do
    let protoRaw ← readS32 data idx
    let st := { st with serverProtocol := protoRaw }
    let srvCount ← readS32 data (idx + 4)
    let attract := byteAt data (idx + 8)
    let idx := idx + 9
    let (gameDir, idx) := readCStr data idx
    let (clientNum, idx) := lenS16 data idx
    let (mapName, idx) := readCStr data idx
    let (st, idx) ←
      if protoRaw = 35 then
        -- R1Q2: u8 enhanced, u16 minor, u8 advancedDeltas, u8 strafejumpHack
        if idx + 5 ≤ data.length then do
          let minor ← readU16 data (idx + 1)
          pure ({ st with serverProtocolMinor := (minor : Int) }, idx + 5)
        else pure (st, idx)
      else if protoRaw = 36 then
        -- Q2PRO: u16 minor, u8 serverState, then u16 flags or 3 bytes
        if idx + 3 ≤ data.length then do
          let minor ← readU16 data idx
          let st := { st with serverProtocolMinor := (minor : Int) }
          let idx := idx + 3
          if st.serverProtocolMinor ≥ 1024 then
            pure (st, if idx + 2 ≤ data.length then idx + 2 else idx)
          else
            pure (st, if idx + 3 ≤ data.length then idx + 3 else idx)
        else pure (st, idx)
      else if protoRaw = 38 then
        -- AQtion: u16 minor, u8 serverState, u8 strafejump, u8 qw, u8 waterjump
        if idx + 6 ≤ data.length then do
          let minor ← readU16 data idx
          pure ({ st with serverProtocolMinor := (minor : Int) }, idx + 6)
        else pure (st, idx)
      else pure (st, idx)
    some (st, idx,
      [.serverdata protoRaw srvCount attract gameDir clientNum
        (cleanQuakeString mapName)], false)

/-- The `SVC.FRAME` case: frame/delta numbers (packed u32 for the
extended protocols, two i32 for vanilla), suppress byte, area mask,
player-state flags, then the player-state delta and the packet-entities
block. -/
def execFrame (st : DecSt) (data : List Nat) (idx : Nat) :
    Option (DecSt × Nat × List GameMsg × Bool) :=
  if idx + 4 > data.length then some (st, idx, [], true)
  else do
    let (st, idx) ←
      if st.serverProtocol = 36 ∨ st.serverProtocol = 38 ∨ st.serverProtocol = 35 then do
        let frameData ← readU32 data idx
        let frameNum := frameData &&& 134217727
        pure ({ st with lastFrameNum := (frameNum : Int) }, idx + 4)
      else do
        let frameNum ← readS32 data idx
        let st := { st with lastFrameNum := frameNum }
        let idx := idx + 4
        let idx ← if idx + 4 ≤ data.length then do
            let _ ← readS32 data idx
            pure (idx + 4)
          else pure idx
        pure (st, idx)
    let idx := if idx < data.length then idx + 1 else idx  -- suppress byte
    let idx :=
      if idx < data.length then idx + 1 + byteAt data idx  -- area mask
      else idx
    let (psFlags, idx) ←
      if idx + 2 ≤ data.length then do
        let v ← readU16 data idx
        pure (v, idx + 2)
      else pure (0, idx)
    let (st, msgs1, idx) :=
      if psFlags ≠ 0 ∧ idx < data.length then
        let (ps, idx2) := parsePlayerState st.tracker.playerState data idx psFlags
        ({ st with tracker := updatePlayerState st.tracker ps },
         [GameMsg.playerUpd ps.pmove.originX ps.pmove.originY ps.pmove.originZ
            ps.pmove.velocityX ps.pmove.velocityY ps.pmove.velocityZ
            ps.vaPitch ps.vaYaw ps.vaRoll ps.gunindex ps.fov], idx2)
      else (st, [], idx)
    let (st, msgs2, idx) :=
      if idx < data.length then
        let (tr, ups, idx2) := parsePacketEntities st.tracker data idx
        ({ st with tracker := tr }, ups.map GameMsg.entityUpd, idx2)
      else (st, [], idx)
    some (st, idx, msgs1 ++ msgs2, false)

/-- The configstring table loop of `SVC.GAMESTATE`: `u16 index, NUL
string` pairs until the end marker `0x7FFF` (or an out-of-range index) or
buffer exhaustion. -/
def gsLoop (fuel : Nat) (data : List Nat) (idx : Nat) (acc : List GameMsg) :
    Option (List GameMsg × Nat) :=
  match fuel with
  | 0 => some (acc, idx)
  | fuel + 1 =>
    if idx + 2 ≤ data.length then do
      let csIndex ← readU16 data idx
      let idx := idx + 2
      if csIndex = 32767 ∨ csIndex ≥ 2080 then some (acc, idx)
      else
        let (text, idx) := readCStr data idx
        let clean := cleanQuakeString text
        gsLoop fuel data idx
          (acc ++ (if clean ≠ [] then [GameMsg.configstring csIndex clean] else []))
    else some (acc, idx)

/-- One `switch (cmd)` dispatch of `parseGameMessage` (the cursor has
already consumed the opcode byte and any `EXTEND` byte).  `recur` is the
recursive nested parse used by `SVC.ZPACKET`.  Returns the new state, the
new cursor, the messages pushed and whether the opcode loop returns. -/
def execCmd (recur : DecSt → List Nat → Option (List GameMsg × DecSt))
    (inflate : List Nat → Option (List Nat)) (nested : Bool)
    (st : DecSt) (data : List Nat) (idx : Nat) (cmd : Nat) :
    Option (DecSt × Nat × List GameMsg × Bool) :=
  match cmd with
  | 6 => some (st, idx, [], false)                      -- NOP
  | 1 => some (st, idx + 3, [], false)                  -- MUZZLEFLASH
  | 2 => some (st, idx + 3, [], false)                  -- MUZZLEFLASH2
  | 3 =>                                                -- TEMP_ENTITY
    if idx ≥ data.length then some (st, idx, [], true)
    else
      let teType := byteAt data idx
      let skip := if 20 ≤ teType ∧ teType ≤ 29 then 12 else 6
      some (st, idx + 1 + skip, [], false)
  | 4 =>                                                -- LAYOUT
    let (_, idx) := readCStr data idx
    some (st, idx, [], false)
  | 5 => some (st, idx + 512, [], false)                -- INVENTORY
  | 12 => execServerdata st data idx                    -- SERVERDATA
  | 13 =>                                               -- CONFIGSTRING
    if idx + 2 > data.length then some (st, idx, [], true)
    else do
      let csIndex ← readU16 data idx
      let (text, idx) := readCStr data (idx + 2)
      let clean := cleanQuakeString text
      some (st, idx,
        if clean ≠ [] then [GameMsg.configstring csIndex clean] else [], false)
  | 14 =>                                               -- SPAWNBASELINE
    let (bits, idx) := parseEntityBits data idx
    if bits = 0 then some (st, idx, [], false)
    else
      let (entityNum, idx) :=
        if bhas bits U_NUMBER16 then lenU16 data idx
        else (byteAt data idx, idx + 1)
      let (state, idx) := parseEntityStateFromBits data idx bits emptyEntity entityNum
      some ({ st with tracker := setBaseline st.tracker entityNum state }, idx, [], false)
  | 10 =>                                               -- PRINT
    if idx ≥ data.length then some (st, idx, [], true)
    else
      let level := byteAt data idx
      let (text, idx) := readCStr data (idx + 1)
      let clean := cleanQuakeString text
      some (st, idx,
        if clean ≠ [] then [GameMsg.print level clean] else [], false)
  | 15 =>                                               -- CENTERPRINT
    let (text, idx) := readCStr data idx
    let clean := cleanQuakeString text
    some (st, idx, if clean ≠ [] then [GameMsg.centerprint clean] else [], false)
  | 11 =>                                               -- STUFFTEXT
    let (text, idx) := readCStr data idx
    let stuffCmd := jsTrim text
    some (st, idx, if stuffCmd ≠ [] then [GameMsg.stufftext stuffCmd] else [], false)
  | 9 =>                                                -- SOUND
    if idx ≥ data.length then some (st, idx, [], true)
    else
      let flags := byteAt data idx
      let idx := idx + 1
      let idx := idx + (if bhas flags 32 then 2 else 1)
      let idx := idx + (if bhas flags 1 then 1 else 0)
      let idx := idx + (if bhas flags 2 then 1 else 0)
      let idx := idx + (if bhas flags 16 then 1 else 0)
      let idx := idx + (if bhas flags 8 then 2 else 0)
      let idx := idx + (if bhas flags 4 then 6 else 0)
      some (st, idx, [], false)
  | 7 => some (st, idx, [GameMsg.server_disconnect], true)   -- DISCONNECT
  | 8 => some (st, idx, [GameMsg.reconnect], true)           -- RECONNECT
  | 20 => execFrame st data idx                              -- FRAME
  | 17 => some (st, idx, [], true)                           -- PLAYERINFO
  | 18 => some (st, idx, [], true)                           -- PACKETENTITIES
  | 19 => some (st, idx, [], true)                           -- DELTAPACKETENTITIES
  | 16 =>                                                    -- DOWNLOAD
    if idx + 2 > data.length then some (st, idx, [], true)
    else do
      let size ← readS16 data idx
      let idx := idx + 3
      some (st, if size > 0 then idx + size.toNat else idx, [], false)
  | 21 =>                                                    -- ZPACKET
    if idx + 4 > data.length then some (st, idx, [], true)
    else do
      let inlen ← readU16 data idx
      let _outlen ← readU16 data (idx + 2)
      let idx := idx + 4
      if idx + inlen > data.length then some (st, idx, [], true)
      else
        let compressed := (data.drop idx).take inlen
        let idx := idx + inlen
        match inflate compressed with
        | none => some (st, idx, [], false)
        | some dec =>
          match recur st dec with
          | none => none
          | some (inner, st) => some (st, idx, inner, false)
  | 23 => do                                                 -- GAMESTATE
    let (msgs, idx) ← gsLoop (data.length + 1) data idx []
    some (st, idx, msgs, true)
  | 24 =>                                                    -- SETTING
    if idx + 8 > data.length then some (st, idx, [], true)
    else some (st, idx + 8, [], false)
  | 25 => some (st, idx, [], true)                           -- CONFIGSTRINGSTREAM
  | 26 => some (st, idx, [], true)                           -- BASELINESTREAM
  | _ =>
    if nested then some (st, idx, [], false)
    else some (st, idx, [], true)

/-- The opcode loop of `parseGameMessage`.  `recur` performs the nested
parse used by `SVC.ZPACKET`; `fuel` bounds the loop iterations (each
consumes at least the opcode byte, so `data.length + 1` suffices).  The
low five bits of the opcode are the command; `EXTEND` (30) reads the real
command from the next byte. -/
def decLoop (recur : DecSt → List Nat → Option (List GameMsg × DecSt))
    (inflate : List Nat → Option (List Nat)) (fuel : Nat)
    (nested : Bool) (st : DecSt) (data : List Nat) (idx : Nat)
    (msgs : List GameMsg) : Option (List GameMsg × DecSt) :=
  match fuel with
  | 0 => some (msgs, st)
  | fuel + 1 =>
    if idx < data.length then
      let opcode := byteAt data idx
      let idx := idx + 1
      let cmd := opcode &&& 31
      let (cmd, idx) :=
        if cmd = 30 ∧ idx < data.length then (byteAt data idx, idx + 1)
        else (cmd, idx)
      match execCmd recur inflate nested st data idx cmd with
      | none => none
      | some (st, idx, newMsgs, stop) =>
        if stop then some (msgs ++ newMsgs, st)
        else decLoop recur inflate fuel nested st data idx (msgs ++ newMsgs)
    else some (msgs, st)

/-- The nested parse at a given `ZPACKET` nesting budget: at depth 0 the
(in practice unreachable) budget exhaustion yields no messages, otherwise
a full `parseGameMessage(bytes, true)` with the budget decremented. -/
def decNest (inflate : List Nat → Option (List Nat)) :
    Nat → DecSt → List Nat → Option (List GameMsg × DecSt)
  | 0 => fun st _ => some ([], st)
  | depth + 1 => fun st bytes =>
    decLoop (decNest inflate depth) inflate (bytes.length + 1) true st bytes 0 []

/-- `parseGameMessage(data, isNested)`; `depth` bounds `ZPACKET` nesting. -/
def parseGameMessage (inflate : List Nat → Option (List Nat)) (depth : Nat)
    (nested : Bool) (st : DecSt) (data : List Nat) :
    Option (List GameMsg × DecSt) :=
  decLoop (decNest inflate depth) inflate (data.length + 1) nested st data 0 []

/-- An inflate oracle that always fails (no compressed payloads). -/
def noInflate : List Nat → Option (List Nat) := fun _ => none

/-- `processServerData`: short or opcode-leading payloads go straight to
the decoder; payloads looking compressed try a whole-buffer raw inflate,
then a `{u16 inlen, u16 outlen}` headered inflate, falling back to direct
parsing. -/
def processServerData (inflate : List Nat → Option (List Nat)) (depth : Nat)
    (st : DecSt) (data : List Nat) : Option (List GameMsg × DecSt) :=
  if data.length < 5 then parseGameMessage inflate depth false st data
  else
    let firstByte := byteAt data 0
    if 6 ≤ firstByte ∧ firstByte ≤ 32 then
      parseGameMessage inflate depth false st data
    else if firstByte = 0 ∨ bhas firstByte 128 then
      let headerForm : Option (List GameMsg × DecSt) := do
        if data.length ≥ 4 then
          let inlen ← readU16 data 0
          let outlen ← readU16 data 2
          if inlen > 0 ∧ inlen < data.length - 4 ∧ outlen > 0 ∧ outlen < 65536 then
            match inflate ((data.drop 4).take inlen) with
            | some dec =>
              if dec.length > 0 then parseGameMessage inflate depth false st dec
              else parseGameMessage inflate depth false st data
            | none => parseGameMessage inflate depth false st data
          else parseGameMessage inflate depth false st data
        else parseGameMessage inflate depth false st data
      match inflate data with
      | some dec =>
        if dec.length > 0 then parseGameMessage inflate depth false st dec
        else headerForm
      | none => headerForm
    else parseGameMessage inflate depth false st data

/-! ## Serverdata handling in the message loop -/

/-- Events emitted by the serverdata branch of `handleServerPacket`'s
message loop. -/
inductive ClEvent where
  | server_info_connected (map gameDir : List Nat) (protocol : Int)
  | server_info_map_change (previousMap map : List Nat)
deriving Repr, DecidableEq

/-- The `case "serverdata"` branch of the message loop: a differing,
non-empty current map name emits `map_change` (and resets the game
state); otherwise a `connected` event is emitted.  Both leave the current
map name equal to the incoming map name.  Only the event and map-name
effects of the branch are embedded here. -/
def applyServerdataMsg (currentMapName : List Nat) (protocol : Int)
    (gameDir mapName : List Nat) : List ClEvent × List Nat :=
  if currentMapName ≠ [] ∧ currentMapName ≠ mapName then
    ([ClEvent.server_info_map_change currentMapName mapName], mapName)
  else
    ([ClEvent.server_info_connected mapName gameDir protocol], mapName)

/-! ## Statement helpers -/

/-- The CONFIGSTRING wire record described by the round-trip claim:
opcode 13, little-endian u16 index, NUL-terminated string. -/
def encodeConfigstring (i : Nat) (s : List Nat) : List Nat :=
  [13, i % 256, i / 256] ++ s ++ [0]

/-- The eight classifications an `0xFFFFFFFF`-prefixed buffer can get. -/
def oobKind : Parsed → Bool
  | .challenge _ _ => true
  | .print _ => true
  | .client_connect _ => true
  | .disconnect _ => true
  | .ack => true
  | .statusResponse _ => true
  | .info _ => true
  | .unknown_oob _ => true
  | _ => false

/-! # Theorems -/

/-- C1 (counterexample).  At the initial `incoming_sequence = 0`, a
received non-fragmented packet with sequence 0 (here the raw 8-byte
buffer `00 00 00 80 00 00 00 00`, i.e. sequence 0 with the reliable bit)
is a duplicate by the claim's criterion, yet processing it toggles
`incoming_reliable_sequence` and falls through to
`sendSequencedResponse`: state changes and an acknowledgement is sent,
refuting the claim for `incoming_sequence = 0`. -/
theorem c1_initial_sequence_counterexample :
    let pkt : SeqPacket :=
      { sequence := 0, reliable := true, fragmented := false
        fragmentOffset := 0, moreFragments := false, ack := 0
        reliableAck := false, data := [] }
    parseOOBPacket [0, 0, 0, 128, 0, 0, 0, 0] = some (.sequenced pkt) ∧
    pkt.sequence ≤ netchanInit.incomingSequence ∧ pkt.fragmented = false ∧
    netchanReceive netchanInit pkt =
      ({ netchanInit with incomingReliableSequence := 1 }, .promoted [] false) ∧
    sendsAckOnEmptyPayload netchanInit pkt = true := by
  decide

/-- C1 (amended).  For every received non-fragmented sequenced packet
with `sequence ≤ incoming_sequence`, provided `incoming_sequence > 0`
(the source's extra guard), processing drops the packet: the state is
returned unchanged and control never reaches the acknowledgement. -/
theorem c1_duplicate_drop (s : NetState) (p : SeqPacket)
    (hseq : p.sequence ≤ s.incomingSequence) (hpos : 0 < s.incomingSequence)
    (hfrag : p.fragmented = false) :
    netchanReceive s p = (s, .dropped) ∧
    mayRespond (netchanReceive s p).2 = false := by
  have h : netchanReceive s p = (s, .dropped) := by
    simp [netchanReceive, hseq, hpos, hfrag]
  exact ⟨h, by rw [h]; rfl⟩

/-- C1 witness: a concrete duplicate (sequence 2 against
`incoming_sequence = 3`) is dropped without response. -/
theorem c1_duplicate_drop_witness :
    netchanReceive { netchanInit with incomingSequence := 3 }
        { sequence := 2, reliable := true, fragmented := false
          fragmentOffset := 0, moreFragments := false, ack := 9
          reliableAck := true, data := [1, 2] } =
      ({ netchanInit with incomingSequence := 3 }, .dropped) ∧
    mayRespond (netchanReceive { netchanInit with incomingSequence := 3 }
        { sequence := 2, reliable := true, fragmented := false
          fragmentOffset := 0, moreFragments := false, ack := 9
          reliableAck := true, data := [1, 2] }).2 = false :=
  c1_duplicate_drop _ _ (by decide) (by decide) (by decide)

/-- C2 (counterexample).  An out-of-order fragment (offset 7 against a
2-byte buffer) is dropped, but the in-progress reassembly is NOT
discarded: the buffer still holds `[1, 2]`, and a following in-order
fragment completes the message with the retained content `[1, 2, 3]`. -/
theorem c2_out_of_order_keeps_buffer :
    let s0 : NetState := { netchanInit with fragmentSequence := 5, fragmentBuffer := [1, 2] }
    (netchanReceive s0 (mkFrag 5 7 false [9])).2 = .fragDropped ∧
    (netchanReceive s0 (mkFrag 5 7 false [9])).1.fragmentBuffer = [1, 2] ∧
    (netchanFeed s0 [mkFrag 5 7 false [9], mkFrag 5 2 false [3]]).2 =
      [.fragDropped, .promoted [1, 2, 3] true] := by
  decide

/-- An in-order intermediate fragment of the current family is appended
to the buffer and the branch returns waiting for more fragments. -/
theorem frag_wait_step (s : NetState) (q off : Nat) (c : List Nat)
    (hq : s.fragmentSequence = q) (hoff : off = s.fragmentBuffer.length) :
    netchanReceive s (mkFrag q off true c) = (fragWaitState s c, .fragWaiting) := by
  subst hoff
  by_cases h : s.incomingReliableAcknowledged = 1 <;>
    simp [netchanReceive, mkFrag, fragWaitState, hq, h]

/-- The in-order final fragment of the current family promotes the
accumulated buffer. -/
theorem frag_final_step (s : NetState) (q off : Nat) (c : List Nat)
    (hq : s.fragmentSequence = q) (hoff : off = s.fragmentBuffer.length) :
    netchanReceive s (mkFrag q off false c) =
      (fragDoneState s q, .promoted (s.fragmentBuffer ++ c)
        (!(s.fragmentBuffer ++ c).isEmpty)) := by
  subst hoff
  by_cases h : s.incomingReliableAcknowledged = 1 <;>
    simp [netchanReceive, mkFrag, fragDoneState, hq, h]

/-- A fragment whose sequence differs from `fragment_sequence` restarts
the buffer before the offset check. -/
theorem frag_reset_step (s : NetState) (q : Nat) (more : Bool) (c : List Nat)
    (hq : s.fragmentSequence ≠ q) :
    netchanReceive s (mkFrag q 0 more c) =
      netchanReceive (fragResetState s q) (mkFrag q 0 more c) := by
  by_cases h : s.incomingReliableAcknowledged = 1 <;>
    cases more <;>
      simp [netchanReceive, mkFrag, fragResetState, hq, h]

/-- In-order fragment runs of the current family accumulate in offset
order: starting in family `q` with offset equal to the buffer length,
the chunk packets wait and the final packet promotes the buffer extended
with all payloads in order. -/
theorem c2aux : ∀ (chunks : List (List Nat)) (lastChunk : List Nat)
    (s : NetState) (q off : Nat), s.fragmentSequence = q →
    off = s.fragmentBuffer.length →
    (netchanFeed s (fragRun q chunks off lastChunk)).2 =
      chunks.map (fun _ => NetOutcome.fragWaiting) ++
        [.promoted (s.fragmentBuffer ++ (chunks.flatten ++ lastChunk))
          (!(s.fragmentBuffer ++ (chunks.flatten ++ lastChunk)).isEmpty)] := by
  intro chunks
  induction chunks with
  | nil =>
    intro lastChunk s q off hq hoff
    rw [fragRun]
    simp [netchanFeed, frag_final_step s q off lastChunk hq hoff]
  | cons c cs ih =>
    intro lastChunk s q off hq hoff
    rw [fragRun]
    simp only [netchanFeed, frag_wait_step s q off c hq hoff]
    rw [ih lastChunk (fragWaitState s c) q (off + c.length)
      (by simp [fragWaitState, hq]) (by simp [fragWaitState, hoff])]
    simp [fragWaitState]

/-- C2 (amended, two parts).  First: for every fresh maximal in-order
fragment run of a family `q` (each accepted fragment's offset is exactly
the buffer length at its arrival), the promoted payload is exactly the
concatenation of the fragment payloads in offset order.  Second: a
fragment of the current family whose offset differs from the buffer
length is dropped alone — the in-progress reassembly is retained, not
discarded (sequence, buffer and incoming sequence unchanged). -/
theorem c2_fragment_reassembly :
    (∀ (q : Nat) (chunks : List (List Nat)) (lastChunk : List Nat) (s : NetState),
      s.fragmentSequence ≠ q →
      (netchanFeed s (fragRun q chunks 0 lastChunk)).2 =
        chunks.map (fun _ => NetOutcome.fragWaiting) ++
          [.promoted (chunks.flatten ++ lastChunk)
            (!(chunks.flatten ++ lastChunk).isEmpty)]) ∧
    (∀ (s : NetState) (p : SeqPacket), p.fragmented = true →
      p.sequence = s.fragmentSequence →
      p.fragmentOffset ≠ s.fragmentBuffer.length →
      (netchanReceive s p).2 = .fragDropped ∧
      (netchanReceive s p).1.fragmentBuffer = s.fragmentBuffer ∧
      (netchanReceive s p).1.fragmentSequence = s.fragmentSequence ∧
      (netchanReceive s p).1.incomingSequence = s.incomingSequence) := by
  constructor
  · intro q chunks lastChunk s hq
    cases chunks with
    | nil =>
      rw [fragRun]
      simp only [netchanFeed, frag_reset_step s q false lastChunk hq,
        frag_final_step (fragResetState s q) q 0 lastChunk (by simp [fragResetState])
          (by simp [fragResetState])]
      simp [fragResetState]
    | cons c cs =>
      rw [fragRun]
      simp only [netchanFeed, frag_reset_step s q true c hq,
        frag_wait_step (fragResetState s q) q 0 c (by simp [fragResetState])
          (by simp [fragResetState])]
      rw [c2aux cs lastChunk (fragWaitState (fragResetState s q) c) q (0 + c.length)
        (by simp [fragWaitState, fragResetState]) (by simp [fragWaitState, fragResetState])]
      simp [fragWaitState, fragResetState]
  · intro s p hfr hseq hoff
    by_cases h : s.incomingReliableAcknowledged = 1 <;>
      simp [netchanReceive, hfr, hseq.symm, hoff, h]

/-- C2 witness: a fresh three-fragment run `[1]`, `[2,3]`, `[4]` of
family 3 promotes `[1,2,3,4]`; an offset-7 fragment against a 2-byte
buffer of family 5 is dropped with the buffer retained. -/
theorem c2_fragment_reassembly_witness :
    (netchanFeed netchanInit (fragRun 3 [[1], [2, 3]] 0 [4])).2 =
      [.fragWaiting, .fragWaiting, .promoted [1, 2, 3, 4] true] ∧
    (netchanReceive { netchanInit with fragmentSequence := 5, fragmentBuffer := [1, 2] }
        (mkFrag 5 7 false [9])).2 = .fragDropped ∧
    (netchanReceive { netchanInit with fragmentSequence := 5, fragmentBuffer := [1, 2] }
        (mkFrag 5 7 false [9])).1.fragmentBuffer = [1, 2] := by
  refine ⟨?_, ?_, ?_⟩
  · simpa using c2_fragment_reassembly.1 3 [[1], [2, 3]] [4] netchanInit (by decide)
  · exact (c2_fragment_reassembly.2 _ _ (by decide) (by decide) (by decide)).1
  · exact (c2_fragment_reassembly.2 _ _ (by decide) (by decide) (by decide)).2.1

/-- C3 (counterexample).  A reliable-marked intermediate fragment
(more-fragments set) is accepted into the reassembly buffer, yet
`incoming_reliable_sequence` does not toggle: the branch returns before
the toggle point. -/
theorem c3_intermediate_fragment_no_toggle :
    let p : SeqPacket :=
      { sequence := 1, reliable := true, fragmented := true
        fragmentOffset := 0, moreFragments := true, ack := 0
        reliableAck := false, data := [7] }
    p.reliable = true ∧
    (netchanReceive netchanInit p).2 = .fragWaiting ∧
    (netchanReceive netchanInit p).1.fragmentBuffer = [7] ∧
    (netchanReceive netchanInit p).1.incomingReliableSequence =
      netchanInit.incomingReliableSequence := by
  decide

/-- C3 (amended).  `incoming_reliable_sequence` is XOR-toggled exactly
when the packet reaches the commit point (outcome `promoted`: a
non-fragmented accepted packet or the final fragment of a reassembly) and
carries the reliable flag; every dropped, out-of-order or intermediate
fragment leaves the bit unchanged. -/
theorem c3_reliable_toggle (s : NetState) (p : SeqPacket) :
    (netchanReceive s p).1.incomingReliableSequence =
      (if mayRespond (netchanReceive s p).2 ∧ p.reliable then
        s.incomingReliableSequence ^^^ 1
      else s.incomingReliableSequence) := by
  cases hfr : p.fragmented with
  | false =>
    by_cases h1 : p.sequence ≤ s.incomingSequence ∧ s.incomingSequence > 0
    · simp [netchanReceive, hfr, h1, mayRespond]
    · cases hrel : p.reliable <;>
        simp [netchanReceive, h1, hfr, hrel, mayRespond]
  | true =>
    by_cases h2 : s.fragmentSequence = p.sequence
    · by_cases h3 : p.fragmentOffset = s.fragmentBuffer.length
      · by_cases h4 : p.moreFragments = true
        · simp [netchanReceive, hfr, h2, h3, h4, mayRespond]
        · cases hrel : p.reliable <;>
            simp [netchanReceive, hfr, h2, h3, h4, hrel, mayRespond]
      · simp [netchanReceive, hfr, h2, h3, mayRespond]
    · by_cases h3 : p.fragmentOffset = 0
      · by_cases h4 : p.moreFragments = true
        · simp [netchanReceive, hfr, h2, h3, h4, mayRespond]
        · cases hrel : p.reliable <;>
            simp [netchanReceive, hfr, h2, h3, h4, hrel, mayRespond]
      · simp [netchanReceive, hfr, h2, h3, mayRespond]

/-- C5 (code evaluated at the failing input).  Entity 5 has baseline
frame 7.  A first packet-entities delta sets frame 10.  A second delta
selecting only `U_ORIGIN1` then yields frame 7 again: the unselected
field was re-read from the baseline, not kept from the current state as
the claim (and the spec) require. -/
theorem c5_delta_applied_over_baseline :
    ((setBaseline trackerInit 5 { frame := 7 }).baselines 5).frame = 7 ∧
    ((parsePacketEntities (setBaseline trackerInit 5 { frame := 7 })
        [16, 5, 10, 0] 0).1.entities 5).frame = 10 ∧
    ((parsePacketEntities
        (parsePacketEntities (setBaseline trackerInit 5 { frame := 7 })
          [16, 5, 10, 0] 0).1 [1, 5, 8, 0, 0] 0).1.entities 5).number = 5 ∧
    ((parsePacketEntities
        (parsePacketEntities (setBaseline trackerInit 5 { frame := 7 })
          [16, 5, 10, 0] 0).1 [1, 5, 8, 0, 0] 0).1.entities 5).active = true ∧
    ((parsePacketEntities
        (parsePacketEntities (setBaseline trackerInit 5 { frame := 7 })
          [16, 5, 10, 0] 0).1 [1, 5, 8, 0, 0] 0).1.entities 5).frame = 7 ∧
    ¬((parsePacketEntities
        (parsePacketEntities (setBaseline trackerInit 5 { frame := 7 })
          [16, 5, 10, 0] 0).1 [1, 5, 8, 0, 0] 0).1.entities 5).frame = 10 := by
  decide

/-- C9.  `get_entity(n)` is total: `null` for `n < 0` or `n ≥ 1024`
(MAX_EDICTS) and the stored record otherwise (`Q2Client.getEntity`
delegates to the tracker unchanged). -/
theorem c9_get_entity_total (t : Tracker) (n : Int) :
    (n < 0 ∨ 1024 ≤ n → getEntity t n = none) ∧
    (0 ≤ n → n < 1024 → getEntity t n = some (t.entities n.toNat)) := by
  constructor
  · intro h
    unfold getEntity
    rw [if_neg]
    omega
  · intro h1 h2
    unfold getEntity
    rw [if_pos ⟨h1, h2⟩]

/-- C9 witness: out-of-range indices -1, 1024, 2000 give `null`; index 5
gives the stored entity. -/
theorem c9_get_entity_total_witness :
    getEntity trackerInit (-1) = none ∧ getEntity trackerInit 1024 = none ∧
    getEntity trackerInit 2000 = none ∧
    getEntity trackerInit 5 = some (trackerInit.entities (5 : Int).toNat) :=
  ⟨(c9_get_entity_total trackerInit (-1)).1 (by omega),
   (c9_get_entity_total trackerInit 1024).1 (by omega),
   (c9_get_entity_total trackerInit 2000).1 (by omega),
   (c9_get_entity_total trackerInit 5).2 (by omega) (by omega)⟩


/-- `parseSequencedPacket` never throws: every raw buffer read is
dominated by a length guard. -/
theorem parseSequencedPacket_isSome (b : List Nat) :
    (parseSequencedPacket b).isSome := by
  by_cases h : b.length < 8
  · simp [parseSequencedPacket, h]
  · have h1 : 0 + 4 ≤ b.length := by omega
    have h2 : 4 + 4 ≤ b.length := by omega
    simp only [parseSequencedPacket, h, if_false, readU32, h1, if_true, h2,
      if_pos, Option.some_bind, Option.pure_def, Option.bind_eq_bind]
    split
    · rename_i hfrag
      have h3 : 8 + 2 ≤ b.length := by omega
      simp [readU16, h3]
    · simp

/-- C10.  The top-level packet classifier is total: every buffer with the
`0xFFFFFFFF` prefix is classified into one of the eight OOB kinds, every
other buffer is handed to `parseSequencedPacket` (with buffers shorter
than 8 bytes yielding the error record rather than an exception), and
the classifier never returns `none`. -/
theorem c10_classifier_total :
    (∀ b : List Nat, (parseOOBPacket b).isSome) ∧
    (∀ b : List Nat, 4 ≤ b.length → b.take 4 = [255, 255, 255, 255] →
      ∃ r, parseOOBPacket b = some r ∧ oobKind r = true) ∧
    (∀ b : List Nat, ¬(4 ≤ b.length ∧ b.take 4 = [255, 255, 255, 255]) →
      parseOOBPacket b = parseSequencedPacket b) ∧
    (∀ b : List Nat, b.length < 8 → ¬(4 ≤ b.length ∧ b.take 4 = [255, 255, 255, 255]) →
      parseOOBPacket b = some .sequencedError) := by
  have hclass : ∀ b : List Nat, 4 ≤ b.length → b.take 4 = [255, 255, 255, 255] →
      ∃ r, parseOOBPacket b = some r ∧ oobKind r = true := by
    intro b h1 h2
    simp only [parseOOBPacket, h1, h2, and_true, not_true_eq_false, ge_iff_le,
      if_false, true_and, not_not]
    split_ifs <;> exact ⟨_, rfl, rfl⟩
  have hseqd : ∀ b : List Nat, ¬(4 ≤ b.length ∧ b.take 4 = [255, 255, 255, 255]) →
      parseOOBPacket b = parseSequencedPacket b := by
    intro b h
    simp only [parseOOBPacket, ge_iff_le]
    rw [if_pos]
    exact h
  refine ⟨?_, hclass, hseqd, ?_⟩
  · intro b
    by_cases h : 4 ≤ b.length ∧ b.take 4 = [255, 255, 255, 255]
    · obtain ⟨r, hr, _⟩ := hclass b h.1 h.2
      simp [hr]
    · rw [hseqd b h]
      exact parseSequencedPacket_isSome b
  · intro b hlen h
    rw [hseqd b h]
    simp [parseSequencedPacket, hlen]


theorem cleanQChar_id (c : Nat) (h1 : 32 ≤ c) (h2 : c ≤ 126) :
    cleanQChar c = [c] := by
  unfold cleanQChar
  rw [if_neg (show ¬ c ≥ 128 by omega)]
  rw [if_pos (show 32 ≤ c ∧ c < 127 by omega)]

theorem flatMap_cleanQChar_id (s : List Nat) (h : ∀ c ∈ s, 32 ≤ c ∧ c ≤ 126) :
    s.flatMap cleanQChar = s := by
  induction s with
  | nil => rfl
  | cons a t ih =>
    have ha := h a (by simp)
    simp only [List.flatMap_cons, cleanQChar_id a ha.1 ha.2]
    rw [ih (fun c hc => h c (by simp [hc]))]
    rfl

theorem jsWs_false (c : Nat) (h1 : 32 ≤ c) (h2 : c ≤ 126) (h3 : c ≠ 32) :
    jsWs c = false := by
  simp only [jsWs]
  simp only [decide_eq_false_iff_not]
  omega

theorem dropWhile_jsWs_id (l : List Nat)
    (h : ∀ a, l.head? = some a → jsWs a = false) : l.dropWhile jsWs = l := by
  cases l with
  | nil => rfl
  | cons a t =>
    rw [List.dropWhile_cons_of_neg]
    simp [h a rfl]

theorem cleanQuakeString_id (s : List Nat)
    (hall : ∀ c ∈ s, 32 ≤ c ∧ c ≤ 126)
    (hh : s.head? ≠ some 32) (hl : s.getLast? ≠ some 32) :
    cleanQuakeString s = s := by
  unfold cleanQuakeString jsTrim
  rw [flatMap_cleanQChar_id s hall]
  rw [dropWhile_jsWs_id s]
  · rw [dropWhile_jsWs_id s.reverse]
    · exact s.reverse_reverse
    · intro a ha
      rw [List.head?_reverse] at ha
      have := hall a (List.mem_of_getLast?_eq_some ha)
      exact jsWs_false a this.1 this.2 (fun hc => hl (hc ▸ ha))
  · intro a ha
    have := hall a (List.mem_of_mem_head? ha)
    exact jsWs_false a this.1 this.2 (fun hc => hh (hc ▸ ha))

theorem takeWhile_nul (s : List Nat) (rest : List Nat)
    (h : ∀ c ∈ s, c ≠ 0) :
    (s ++ 0 :: rest).takeWhile (fun c => c ≠ 0) = s := by
  induction s with
  | nil => simp [List.takeWhile]
  | cons a t ih =>
    have ha := h a (by simp)
    simp only [List.cons_append, List.takeWhile_cons]
    rw [if_pos (by simpa using ha)]
    rw [ih (fun c hc => h c (by simp [hc]))]

theorem decLoop_stop (recur : DecSt → List Nat → Option (List GameMsg × DecSt))
    (inflate : List Nat → Option (List Nat)) (fuel : Nat) (nested : Bool)
    (st : DecSt) (data : List Nat) (idx : Nat) (msgs : List GameMsg)
    (h : ¬ idx < data.length) :
    decLoop recur inflate fuel nested st data idx msgs = some (msgs, st) := by
  cases fuel <;> simp [decLoop, h]


/-- C4 (amended).  For every index and every string of printable ASCII
bytes (0x20..0x7E) that is non-empty and has no leading or trailing
space, encoding a CONFIGSTRING record (opcode 13, little-endian u16
index, NUL-terminated string) and decoding it yields exactly the
configstring message with the original index and string.  The claim over
arbitrary latin-1 strings fails because `cleanQuakeString` rewrites the
text (see the counterexample). -/
theorem c4_roundtrip (i : Nat) (s : List Nat) (hi : i ≤ 2080)
    (hall : ∀ c ∈ s, 32 ≤ c ∧ c ≤ 126) (hne : s ≠ [])
    (hh : s.head? ≠ some 32) (hl : s.getLast? ≠ some 32) :
    (parseGameMessage noInflate 0 false {} (encodeConfigstring i s)).map Prod.fst =
      some [GameMsg.configstring i s] := by
  have hd : encodeConfigstring i s = 13 :: (i % 256) :: (i / 256) :: (s ++ [0]) := by
    simp [encodeConfigstring]
  have hlen : (encodeConfigstring i s).length = s.length + 4 := by
    rw [hd]
    simp
  have hu : readU16 (encodeConfigstring i s) 1 = some i := by
    unfold readU16
    rw [if_pos (by rw [hlen]; omega)]
    rw [hd]
    simp only [u16At, byteAt, List.getD_cons_succ, List.getD_cons_zero]
    simp only [Option.some.injEq]
    omega
  have hcs : readCStr (encodeConfigstring i s) 3 = (s, s.length + 4) := by
    rw [hd]
    simp only [readCStr, List.drop_succ_cons, List.drop_zero]
    rw [show s ++ [0] = s ++ 0 :: [] from rfl]
    rw [takeWhile_nul s [] (fun c hc => by have := hall c hc; omega)]
    rw [show 3 + s.length + 1 = s.length + 4 by omega]
  have hclean := cleanQuakeString_id s hall hh hl
  have hexe : execCmd (decNest noInflate 0) noInflate false ({} : DecSt)
      (encodeConfigstring i s) 1 13 =
      some (({} : DecSt), s.length + 4, [GameMsg.configstring i s], false) := by
    simp only [execCmd]
    rw [if_neg (show ¬ (1 + 2 > (encodeConfigstring i s).length) by rw [hlen]; omega)]
    rw [hu]
    simp only [Option.pure_def, Option.bind_eq_bind, Option.some_bind]
    rw [show (1 : Nat) + 2 = 3 from rfl, hcs]
    simp [hclean, hne]
  unfold parseGameMessage
  rw [hlen]
  simp only [decLoop]
  rw [if_pos (show 0 < (encodeConfigstring i s).length by rw [hlen]; omega)]
  rw [show byteAt (encodeConfigstring i s) 0 = 13 by rw [hd]; rfl]
  rw [if_neg (show ¬((13 : Nat) &&& 31 = 30 ∧ 1 < (encodeConfigstring i s).length) from
    fun h => absurd h.1 (by decide))]
  rw [show (((13 : Nat) &&& 31, (1 : Nat)) : Nat × Nat).1 = 13 from rfl]
  rw [show (((13 : Nat) &&& 31, (1 : Nat)) : Nat × Nat).2 = 1 from rfl]
  rw [hexe]
  dsimp only
  rw [if_neg (show ¬ s.length + 4 < (encodeConfigstring i s).length by rw [hlen]; omega)]
  simp

/-- C4 (counterexample).  The control byte 0x01 is dropped by
`cleanQuakeString`, so `encodeConfigstring 1 [1]` decodes to no message
at all rather than to `configstring 1 [1]`: the round-trip is lossy for
arbitrary latin-1 strings. -/
theorem c4_lossy_counterexample :
    (parseGameMessage noInflate 0 false {} (encodeConfigstring 1 [1])).map Prod.fst ≠
      some [GameMsg.configstring 1 [1]] ∧
    (parseGameMessage noInflate 0 false {} (encodeConfigstring 1 [1])).map Prod.fst =
      some [] :=
  ⟨by decide, by decide⟩

/-- C4 witness: index 5 and the two-byte string `hi` round-trip. -/
theorem c4_roundtrip_witness :
    (parseGameMessage noInflate 0 false {} (encodeConfigstring 5 [104, 105])).map Prod.fst =
      some [GameMsg.configstring 5 [104, 105]] :=
  c4_roundtrip 5 [104, 105] (by decide) (by decide) (by decide) (by decide) (by decide)

theorem gsLoop_isSome : ∀ (fuel : Nat) (data : List Nat) (idx : Nat)
    (acc : List GameMsg), (gsLoop fuel data idx acc).isSome := by
  intro fuel
  induction fuel with
  | zero => intro data idx acc; simp [gsLoop]
  | succ fuel ih =>
    intro data idx acc
    rw [gsLoop]
    split
    · rename_i h
      rw [show readU16 data idx = some (u16At data idx) by simp [readU16]; omega]
      simp only [Option.pure_def, Option.bind_eq_bind, Option.some_bind]
      split
      · simp
      · exact ih data (idx + 2 + ((data.drop (idx + 2)).takeWhile (fun c => c ≠ 0)).length + 1) _
    · simp

theorem bind_isSome {A B : Type} (o : Option A) (f : A → Option B)
    (h : o.isSome) (hf : ∀ a, (f a).isSome) : (o.bind f).isSome := by
  cases o with
  | none => simp at h
  | some a => exact hf a

theorem readU16_isSome (l : List Nat) (i : Nat) (h : i + 2 ≤ l.length) :
    (readU16 l i).isSome := by simp [readU16, h]

theorem execServerdata_isSome (st : DecSt) (data : List Nat) (idx : Nat) :
    (execServerdata st data idx).isSome := by
  rw [execServerdata]
  split
  · simp
  · rename_i h
    rw [show readS32 data idx = some (toInt32 (u32At data idx)) by
      simp [readS32, readU32]; omega]
    rw [show readS32 data (idx + 4) = some (toInt32 (u32At data (idx + 4))) by
      simp [readS32, readU32]; omega]
    simp only [Option.pure_def, Option.bind_eq_bind, Option.some_bind]
    split_ifs <;>
      first
        | exact bind_isSome _ _ (readU16_isSome _ _ (by omega))
            (fun a => by first | (split_ifs <;> simp) | simp)
        | simp

theorem readU32_isSome (l : List Nat) (i : Nat) (h : i + 4 ≤ l.length) :
    (readU32 l i).isSome := by simp [readU32, h]

theorem readS32_isSome (l : List Nat) (i : Nat) (h : i + 4 ≤ l.length) :
    (readS32 l i).isSome := by simp [readS32, readU32, h]

theorem readS16_isSome (l : List Nat) (i : Nat) (h : i + 2 ≤ l.length) :
    (readS16 l i).isSome := by simp [readS16, readU16, h]

set_option maxHeartbeats 2000000 in
theorem execFrame_isSome (st : DecSt) (data : List Nat) (idx : Nat) :
    (execFrame st data idx).isSome := by
  rw [execFrame]
  split
  · simp
  · split
    · -- extended protocols
      apply bind_isSome _ _ (readU32_isSome _ _ (by omega))
      intro w
      simp only [Option.pure_def, Option.bind_eq_bind, Option.some_bind]
      try dsimp only
      repeat' split
      all_goals
        first
          | (simp; done)
          | exact bind_isSome _ _ (readU16_isSome _ _ (by assumption)) (fun a => by simp)
    · -- vanilla
      apply bind_isSome _ _ (readS32_isSome _ _ (by omega))
      intro w
      simp only [Option.pure_def, Option.bind_eq_bind, Option.some_bind]
      try dsimp only
      by_cases hd : idx + 4 + 4 ≤ data.length
      · rw [if_pos hd]
        apply bind_isSome _ _ (readS32_isSome _ _ hd)
        intro dn
        try dsimp only
        repeat' split
        all_goals
          first
            | (simp; done)
            | exact bind_isSome _ _ (readU16_isSome _ _ (by assumption)) (fun a => by simp)
      · rw [if_neg hd]
        try simp only [Option.pure_def, Option.bind_eq_bind, Option.some_bind]
        try dsimp only
        repeat' split
        all_goals
          first
            | (simp; done)
            | exact bind_isSome _ _ (readU16_isSome _ _ (by assumption)) (fun a => by simp)

set_option maxHeartbeats 1000000 in
theorem execCmd_isSome (recur : DecSt → List Nat → Option (List GameMsg × DecSt))
    (inflate : List Nat → Option (List Nat)) (nested : Bool) (st : DecSt)
    (data : List Nat) (idx : Nat) (cmd : Nat)
    (hrec : ∀ st2 bytes, (recur st2 bytes).isSome) :
    (execCmd recur inflate nested st data idx cmd).isSome := by
  unfold execCmd
  split
  all_goals
    first
      | (simp; done)
      | ((repeat' split) <;> (simp; done))
      | exact execServerdata_isSome _ _ _
      | exact execFrame_isSome _ _ _
      | (apply bind_isSome _ _ (gsLoop_isSome _ _ _ _)
         intro pr
         (repeat' split) <;> (simp; done))
      | (split
         · (simp; done)
         · (try simp only [Option.pure_def, Option.bind_eq_bind, Option.some_bind]) <;>
           (apply bind_isSome
            · first
                | exact readU16_isSome _ _ (by omega)
                | exact readS16_isSome _ _ (by omega)
            · intro v1
              first
                | ((repeat' split) <;> (simp; done))
                | (apply bind_isSome
                   · exact readU16_isSome _ _ (by omega)
                   · intro v2
                     split
                     · (simp; done)
                     · split
                       · (simp; done)
                       · split
                         · (rename_i o1 dec hinf o2 heq
                            have h2 := hrec st dec
                            rw [heq] at h2
                            simp at h2)
                         · (simp; done))))

theorem decLoop_isSome (recur : DecSt → List Nat → Option (List GameMsg × DecSt))
    (inflate : List Nat → Option (List Nat))
    (hrec : ∀ st2 bytes, (recur st2 bytes).isSome) :
    ∀ (fuel : Nat) (nested : Bool) (st : DecSt) (data : List Nat)
      (idx : Nat) (msgs : List GameMsg),
    (decLoop recur inflate fuel nested st data idx msgs).isSome := by
  intro fuel
  induction fuel with
  | zero => intro nested st data idx msgs; simp [decLoop]
  | succ fuel ih =>
    intro nested st data idx msgs
    rw [decLoop]
    split
    · dsimp only
      split
      · rename_i heq
        exact absurd heq (Option.ne_none_iff_isSome.mpr (execCmd_isSome _ _ _ _ _ _ _ hrec))
      · rename_i st2 idx2 newMsgs stop heq
        split
        · simp
        · exact ih nested st2 data _ (msgs ++ newMsgs)
    · simp

theorem decNest_isSome (inflate : List Nat → Option (List Nat)) :
    ∀ (depth : Nat) (st : DecSt) (bytes : List Nat),
    (decNest inflate depth st bytes).isSome := by
  intro depth
  induction depth with
  | zero => intro st bytes; simp [decNest]
  | succ d ih => intro st bytes; exact decLoop_isSome _ _ ih _ _ _ _ _ _

theorem parseGameMessage_isSome (inflate : List Nat → Option (List Nat))
    (depth : Nat) (nested : Bool) (st : DecSt) (data : List Nat) :
    (parseGameMessage inflate depth nested st data).isSome :=
  decLoop_isSome _ _ (decNest_isSome inflate depth) _ _ _ _ _ _

theorem processServerData_isSome (inflate : List Nat → Option (List Nat))
    (depth : Nat) (st : DecSt) (data : List Nat) :
    (processServerData inflate depth st data).isSome := by
  have hp : ∀ d, (parseGameMessage inflate depth false st d).isSome :=
    fun d => parseGameMessage_isSome inflate depth false st d
  rw [processServerData]
  by_cases h5 : data.length < 5
  · rw [if_pos h5]; exact hp _
  · rw [if_neg h5]
    dsimp only
    by_cases hA : 6 ≤ byteAt data 0 ∧ byteAt data 0 ≤ 32
    · rw [if_pos hA]; exact hp _
    · rw [if_neg hA]
      by_cases hB : byteAt data 0 = 0 ∨ bhas (byteAt data 0) 128 = true
      · rw [if_pos hB]
        split
        · split
          · exact hp _
          · split
            · try simp only [Option.pure_def, Option.bind_eq_bind, Option.some_bind]
              apply bind_isSome
              · exact readU16_isSome _ _ (by omega)
              · intro a
                apply bind_isSome
                · exact readU16_isSome _ _ (by omega)
                · intro b
                  split
                  · split
                    · split
                      · exact hp _
                      · exact hp _
                    · exact hp _
                  · exact hp _
            · exact hp _
        · split
          · try simp only [Option.pure_def, Option.bind_eq_bind, Option.some_bind]
            apply bind_isSome
            · exact readU16_isSome _ _ (by omega)
            · intro a
              apply bind_isSome
              · exact readU16_isSome _ _ (by omega)
              · intro b
                split
                · split
                  · split
                    · exact hp _
                    · exact hp _
                  · exact hp _
                · exact hp _
          · exact hp _
      · rw [if_neg hB]; exact hp _

/-- C7 (amended).  The decoder never raises: `parseGameMessage` and the
`processServerData` wrapper return a result for every payload; the empty
payload yields the empty message list with the state unchanged; and an
opcode whose explicit guard detects truncation (CONFIGSTRING with a
single argument byte) stops the loop, returning exactly the messages
decoded before it with the state unchanged.  Not every truncated block
halts decoding this way, however: see the counterexample. -/
theorem c7_decoder_total :
    (∀ (inflate : List Nat → Option (List Nat)) (depth : Nat) (nested : Bool)
        (st : DecSt) (data : List Nat),
        (parseGameMessage inflate depth nested st data).isSome)
  ∧ (∀ (inflate : List Nat → Option (List Nat)) (depth : Nat)
        (st : DecSt) (data : List Nat),
        (processServerData inflate depth st data).isSome)
  ∧ (∀ (inflate : List Nat → Option (List Nat)) (depth : Nat) (nested : Bool)
        (st : DecSt),
        parseGameMessage inflate depth nested st [] = some ([], st))
  ∧ (∀ (st : DecSt) (i : Nat),
        parseGameMessage noInflate 0 false st [13, i] = some ([], st)) := by
  refine ⟨fun inflate depth nested st data => parseGameMessage_isSome _ _ _ _ _,
    fun inflate depth st data => processServerData_isSome _ _ _ _,
    fun inflate depth nested st => rfl,
    fun st i => ?_⟩
  have h13 : (13 : Nat) &&& 31 = 13 := by decide
  simp only [parseGameMessage]
  rw [decLoop]
  simp [execCmd, byteAt, h13]

/-- C7 (counterexample).  A SERVERDATA block truncated right after its
nine mandatory bytes does not stop decoding at the truncation point: the
lenient string and short readers fabricate empty values, a garbage
`serverdata` message is emitted, and the connection state changes
(`serverProtocol` becomes 35). -/
theorem c7_truncated_serverdata_counterexample :
    (parseGameMessage noInflate 0 false {} [12,35,0,0,0,1,0,0,0,0]).map Prod.fst
        = some [GameMsg.serverdata 35 1 0 [] 0 []]
  ∧ (parseGameMessage noInflate 0 false {} [12,35,0,0,0,1,0,0,0,0]).map
        (fun p => (Prod.snd p).serverProtocol) = some 35 := by
  constructor
  · decide
  · decide

/-- C6.  The vanilla golden SERVERDATA payload decodes to the expected
serverdata message (protocol 34, gameDir `baseq2`, client number 5, map
`q2dm1`); the serverdata branch of the message loop emits the connected
event and leaves the current map name equal to `q2dm1`; and for
protocols 35, 36 and 38 the protocol-specific tail bytes are consumed so
the cursor lands exactly on the following PRINT opcode. -/
theorem c6_serverdata_decode :
    (processServerData noInflate 0 {}
        ([12, 34, 0, 0, 0, 1, 0, 0, 0, 0] ++ [98, 97, 115, 101, 113, 50, 0] ++
         [5, 0] ++ [113, 50, 100, 109, 49, 0])).map Prod.fst =
      some [.serverdata 34 1 0 [98, 97, 115, 101, 113, 50] 5 [113, 50, 100, 109, 49]] ∧
    applyServerdataMsg [] 34 [98, 97, 115, 101, 113, 50] [113, 50, 100, 109, 49] =
      ([.server_info_connected [113, 50, 100, 109, 49] [98, 97, 115, 101, 113, 50] 34],
       [113, 50, 100, 109, 49]) ∧
    (parseGameMessage noInflate 0 false {}
        ([12, 35, 0, 0, 0, 1, 0, 0, 0, 0] ++ [98, 97, 115, 101, 113, 50, 0] ++
         [5, 0] ++ [113, 50, 100, 109, 49, 0] ++ [9, 113, 7, 88, 88] ++
         [10, 1, 104, 105, 0])).map Prod.fst =
      some [.serverdata 35 1 0 [98, 97, 115, 101, 113, 50] 5 [113, 50, 100, 109, 49],
            .print 1 [104, 105]] ∧
    (parseGameMessage noInflate 0 false {}
        ([12, 36, 0, 0, 0, 1, 0, 0, 0, 0] ++ [98, 97, 115, 101, 113, 50, 0] ++
         [5, 0] ++ [113, 50, 100, 109, 49, 0] ++ [0, 4, 1, 9, 9] ++
         [10, 1, 104, 105, 0])).map Prod.fst =
      some [.serverdata 36 1 0 [98, 97, 115, 101, 113, 50] 5 [113, 50, 100, 109, 49],
            .print 1 [104, 105]] ∧
    (parseGameMessage noInflate 0 false {}
        ([12, 38, 0, 0, 0, 1, 0, 0, 0, 0] ++ [98, 97, 115, 101, 113, 50, 0] ++
         [5, 0] ++ [113, 50, 100, 109, 49, 0] ++ [199, 11, 1, 0, 0, 0] ++
         [10, 1, 104, 105, 0])).map Prod.fst =
      some [.serverdata 38 1 0 [98, 97, 115, 101, 113, 50] 5 [113, 50, 100, 109, 49],
            .print 1 [104, 105]] := by
  refine ⟨by decide, by decide, by decide, by decide, by decide⟩

/-- C8.  The golden challenge OOB packet parses to challenge id 12345
with the protocol list 34,35,36,38; protocol selection prefers 38, then
36, then 35, then 34; and the connect command built for the selected
protocol 38 begins with the bytes of `connect 38`. -/
theorem c8_protocol_selection :
    parseOOBPacket ([255, 255, 255, 255] ++
        [99, 104, 97, 108, 108, 101, 110, 103, 101, 32, 49, 50, 51, 52, 53, 32,
         112, 61, 51, 52, 44, 51, 53, 44, 51, 54, 44, 51, 56, 10]) =
      some (.challenge (some 12345) [some 34, some 35, some 36, some 38]) ∧
    selectProtocol 34 [some 34, some 35, some 36, some 38] = 38 ∧
    selectProtocol 34 [some 34, some 35, some 36] = 36 ∧
    selectProtocol 34 [some 34, some 35] = 35 ∧
    selectProtocol 34 [some 34] = 34 ∧
    (∀ (qport cid nct : Nat) (name : List Nat),
      [99, 111, 110, 110, 101, 99, 116, 32, 51, 56] <+:
        connectCommand 38 qport cid name nct) := by
  refine ⟨by decide, by decide, by decide, by decide, by decide,
    fun qport cid nct name => ⟨_, rfl⟩⟩

end Q2Mon
